import Mathlib

/-!
Verification of the authentication and authorization core of the
SQLSelectProject repository (services/api-python), as a shallow embedding in
Lean 4.  Times are modelled as natural numbers (seconds on an abstract clock);
credential strings, bcrypt digests and signed JWTs are modelled by inductive
types that are faithful to the behaviour of the libraries the source calls
(passlib with the bcrypt scheme, python-jose).  Database sessions are modelled
by explicit state passing over a `DB` record, and every Python function that
can raise returns an `Except`.
-/

namespace App

/-! ## Credential strings and digests

A credential string presented by a client (a password, an API key, or the
value of a bearer header) is modelled by `Cred`: either a well-formed JWT
signed with some key, or any other opaque string.  `Payload` models the JWT
claims dictionary as produced by `app/core/security.py` (`exp`, `sub`, `iat`,
`type`); `typ` stands for the Python key `"type"`. -/

structure Payload where
  sub : Option String
  typ : Option String
  exp : Nat
  iat : Nat
deriving DecidableEq, Repr

inductive Cred where
  | jwtSigned (payload : Payload) (key : String)
  | str (s : String)
deriving DecidableEq, Repr

/-- A stored digest.  `bcrypt salt input` is a well-formed bcrypt hash of the
plaintext `input` under a salt (bcrypt is modelled as an ideal salted one-way
function: verification compares plaintexts, fresh salts give distinct
digests).  `sha256hex input` is the hex digest produced by
`hashlib.sha256(...).hexdigest()` in `endpoints/auth.py`; `malformed` is any
string that is not a recognizable hash encoding at all. -/
inductive Digest where
  | bcrypt (salt : Nat) (input : String)
  | sha256hex (input : String)
  | malformed (raw : String)
deriving DecidableEq, Repr

inductive PasslibErr where
  | unknownHash
deriving DecidableEq, Repr

/-- passlib identifies the hash scheme from the digest itself; the context in
`security.py` is `CryptContext(schemes=["bcrypt"])`, so only bcrypt digests
are identifiable and any other digest raises `UnknownHashError`. -/
def ctxIdentify : Digest → Bool
  | .bcrypt _ _ => true
  | .sha256hex _ => false
  | .malformed _ => false

/-- Whether a presented credential string equals the plaintext a bcrypt digest
was produced from.  A signed JWT serialization is never anybody's stored
password or API-key plaintext in this model. -/
def credMatches (c : Cred) (d : Digest) : Bool :=
  match c, d with
  | .str s, .bcrypt _ input => s == input
  | _, _ => false

/-- Model of `pwd_context.verify`: identify the digest scheme, then compare;
an unidentifiable digest raises rather than returning false. -/
def pwd_context_verify (c : Cred) (d : Digest) : Except PasslibErr Bool :=
  if ctxIdentify d then .ok (credMatches c d) else .error .unknownHash

/-- `security.hash_password`: `pwd_context.hash(password)` with a fresh random
salt, modelled as an explicit `salt` argument. -/
def hash_password (salt : Nat) (password : String) : Digest :=
  .bcrypt salt password

/-- `security.verify_password`: delegates to `pwd_context.verify` without
catching anything. -/
def verify_password (plain_password : String) (hashed_password : Digest) :
    Except PasslibErr Bool :=
  pwd_context_verify (.str plain_password) hashed_password

/-- `security.hash_api_key`: same context as password hashing. -/
def hash_api_key (salt : Nat) (api_key : String) : Digest :=
  .bcrypt salt api_key

/-- `security.verify_api_key`: delegates to `pwd_context.verify` without
catching anything.  The plaintext argument is the raw bearer-header value. -/
def verify_api_key (plain_key : Cred) (hashed_key : Digest) :
    Except PasslibErr Bool :=
  pwd_context_verify plain_key hashed_key

/-! ## Data model (`app/models/user.py`)

Profile fields, free-text descriptions, scopes and the created/updated
timestamp mixins carry no behaviour used by the authentication core and are
omitted from the embedding. -/

structure Role where
  name : String
  permissions : List String
  is_active : Bool
deriving DecidableEq, Repr

structure User where
  id : Nat
  username : String
  email : String
  password_hash : Digest
  is_active : Bool
  is_superuser : Bool
  last_login : Option Nat
  failed_login_attempts : Nat
  locked_until : Option Nat
  roles : List Role
deriving DecidableEq, Repr

/-- `User.is_locked`: `self.locked_until > datetime.utcnow()` when
`locked_until` is set, else false. -/
def User.is_locked (u : User) (now : Nat) : Bool :=
  match u.locked_until with
  | some t => decide (now < t)
  | none => false

/-- `User.has_permission`: superusers always pass; otherwise some role must be
active and contain the exact permission string.  (There is no wildcard
handling in the source.) -/
def User.has_permission (u : User) (permission : String) : Bool :=
  if u.is_superuser then true
  else u.roles.any (fun role => role.is_active && role.permissions.contains permission)

/-- `User.has_role`: any role matches by name and is active. -/
def User.has_role (u : User) (role_name : String) : Bool :=
  u.roles.any (fun role => role.name == role_name && role.is_active)

structure ApiKey where
  id : Nat
  key_hash : Digest
  name : String
  user_id : Nat
  is_active : Bool
  expires_at : Option Nat
  last_used_at : Option Nat
deriving DecidableEq, Repr

/-- `ApiKey.is_expired`: `self.expires_at < datetime.utcnow()` when set. -/
def ApiKey.is_expired (k : ApiKey) (now : Nat) : Bool :=
  match k.expires_at with
  | some t => decide (t < now)
  | none => false

/-- The persistent state reachable from one database session. -/
structure DB where
  users : List User
  api_keys : List ApiKey
deriving DecidableEq, Repr

def DB.getUserById (db : DB) (uid : Nat) : Option User :=
  db.users.find? (fun u => u.id == uid)

def DB.updateUser (db : DB) (uid : Nat) (f : User → User) : DB :=
  { db with users := db.users.map (fun u => if u.id == uid then f u else u) }

def DB.updateApiKey (db : DB) (kid : Nat) (f : ApiKey → ApiKey) : DB :=
  { db with api_keys := db.api_keys.map (fun k => if k.id == kid then f k else k) }

/-! ## Token codec (`app/core/security.py`) -/

def SECRET_KEY : String := "your-secret-key-change-in-production"

def JWT_EXPIRATION : Nat := 3600

def REFRESH_TOKEN_EXPIRATION : Nat := 604800

inductive JoseError where
  | expiredSignature
  | jwtError
deriving DecidableEq, Repr

/-- Model of `jose.jwt.decode(token, key, algorithms)`: a string that is not a
well-formed JWT, or a JWT signed with a different key, raises `JWTError`; a
verified token whose `exp` claim is in the past raises
`ExpiredSignatureError` (a subclass of `JWTError`); otherwise the payload is
returned. -/
def jose_jwt_decode (token : Cred) (key : String) (now : Nat) :
    Except JoseError Payload :=
  match token with
  | .str _ => .error .jwtError
  | .jwtSigned payload k =>
    if k != key then .error .jwtError
    else if decide (now > payload.exp) then .error .expiredSignature
    else .ok payload

/-- `security.create_access_token` without an override of the expiry delta and
without additional claims (no caller relevant to the verified claims passes
claims that overwrite `type`). -/
def create_access_token (subject : String) (now : Nat) : Cred :=
  .jwtSigned
    { sub := some subject, typ := some "access",
      exp := now + JWT_EXPIRATION, iat := now } SECRET_KEY

/-- `security.create_refresh_token` without an override of the expiry delta. -/
def create_refresh_token (subject : String) (now : Nat) : Cred :=
  .jwtSigned
    { sub := some subject, typ := some "refresh",
      exp := now + REFRESH_TOKEN_EXPIRATION, iat := now } SECRET_KEY

/-! ## Authentication dependencies (`app/core/security.py`) -/

/-- The outcome of a request-level dependency: an `HTTPException` carrying a
status code and detail, or an exception of another class escaping unhandled
(a passlib `UnknownHashError` from `pwd_context.verify`, or a jose `JWTError`
escaping a code path that does not convert it). -/
inductive AuthError where
  | http (status : Nat) (detail : String)
  | unknownHash
  | jwtException (e : JoseError)
deriving DecidableEq, Repr

/-- `security.decode_token`: `jose.jwt.decode` under `try`, with every
`JWTError` (expiry included, since `ExpiredSignatureError` is a subclass)
converted to the one generic 401 `HTTPException`. -/
def decode_token (token : Cred) (now : Nat) : Except AuthError Payload :=
  match jose_jwt_decode token SECRET_KEY now with
  | .ok payload => .ok payload
  | .error _ => .error (.http 401 "Could not validate credentials")

/-- The `credentials_exception` built at the top of `get_current_user`. -/
def credentials_exception : AuthError :=
  .http 401 "Could not validate credentials"

/-- `security.get_current_user`: token required, decoded, `sub` and
`type == "access"` checked, the user looked up by username among active
users, the lock checked, and `last_login` committed on success. -/
def get_current_user (token : Option Cred) (db : DB) (now : Nat) :
    Except AuthError (User × DB) :=
  match token with
  | none => .error credentials_exception
  | some t =>
    match decode_token t now with
    | .error e => .error e
    | .ok payload =>
      match payload.sub with
      | none => .error credentials_exception
      | some username =>
        if payload.typ != some "access" then .error credentials_exception
        else
          match db.users.find? (fun u => u.username == username && u.is_active) with
          | none => .error credentials_exception
          | some user =>
            if user.is_locked now then
              .error (.http 403 "Account is locked. Please contact administrator.")
            else
              (let user1 : User := { user with last_login := some now }
               .ok (user1, db.updateUser user.id (fun u => { u with last_login := some now })))

/-- `security.get_current_user_optional`: absent token gives `none`; an
`HTTPException` raised by `get_current_user` is caught and gives `none`;
exceptions of other classes would propagate. -/
def get_current_user_optional (token : Option Cred) (db : DB) (now : Nat) :
    Except AuthError (Option User × DB) :=
  match token with
  | none => .ok (none, db)
  | some _ =>
    match get_current_user token db now with
    | .ok (u, db1) => .ok (some u, db1)
    | .error (.http _ _) => .ok (none, db)
    | .error e => .error e

/-- The scan loop inside `security.get_api_key_user` over the active API
keys: `verify_api_key` on each stored hash (its `UnknownHashError` is not
caught and escapes the request), then expiry check, `last_used_at` update and
owner lookup on a match, and a 401 on exhaustion. -/
def scanApiKeys (api_key : Cred) (keys : List ApiKey) (db : DB) (now : Nat) :
    Except AuthError (Option User × DB) :=
  match keys with
  | [] => .error (.http 401 "Invalid API key")
  | key_record :: rest =>
    match verify_api_key api_key key_record.key_hash with
    | .error .unknownHash => .error .unknownHash
    | .ok false => scanApiKeys api_key rest db now
    | .ok true =>
      if key_record.is_expired now then
        .error (.http 401 "API key has expired")
      else
        (let db1 := db.updateApiKey key_record.id
            (fun k => { k with last_used_at := some now })
         match db1.getUserById key_record.user_id with
         | none => .error (.http 401 "User account is inactive")
         | some user =>
           if user.is_active then .ok (some user, db1)
           else .error (.http 401 "User account is inactive"))

/-- `security.get_api_key_user`: `none` without credentials, otherwise the
scan over `ApiKey.is_active` records.  The credentials come from the same
`Authorization: Bearer` header the token scheme reads. -/
def get_api_key_user (credentials : Option Cred) (db : DB) (now : Nat) :
    Except AuthError (Option User × DB) :=
  match credentials with
  | none => .ok (none, db)
  | some api_key => scanApiKeys api_key (db.api_keys.filter (fun k => k.is_active)) db now

/-- `security.get_current_user_or_api_key`: FastAPI resolves both
sub-dependencies (in declaration order, over the same session and the same
`Authorization` header) before the body runs, so an exception raised by
either one aborts the request; the body then prefers the token identity and
raises 401 when both are absent. -/
def get_current_user_or_api_key (authorization : Option Cred) (db : DB) (now : Nat) :
    Except AuthError (User × DB) :=
  match get_current_user_optional authorization db now with
  | .error e => .error e
  | .ok (user_from_token, db1) =>
    match get_api_key_user authorization db1 now with
    | .error e => .error e
    | .ok (user_from_api_key, db2) =>
      match user_from_token with
      | some user => .ok (user, db2)
      | none =>
        match user_from_api_key with
        | some user => .ok (user, db2)
        | none => .error (.http 401 "Not authenticated")

/-! ## Token endpoints (`app/api/v1/endpoints/auth.py`)

The endpoint module imports a `JWTHandler` from the security module that is
not defined anywhere under the source tree (it belongs to the other of the
two divergent auth variants the repository mixes). -/

/-- Modelled from the spec: `JWTHandler.decode_token` is imported by
`endpoints/auth.py` but defined nowhere in the source tree; per the spec,
decode verifies signature and expiry, failing with `TokenInvalid` on
signature mismatch or malformed structure and with `TokenExpired` when
`now > expires-at`, and returns the raw claims otherwise.  The failure kinds
map onto the jose errors the real codec surfaces. -/
def JWTHandler.decode_token (token : Cred) (now : Nat) : Except JoseError Payload :=
  jose_jwt_decode token SECRET_KEY now

/-- Modelled from the spec: `JWTHandler.create_access_token` is imported by
`endpoints/auth.py` but defined nowhere in the source tree; per the spec,
issuance embeds the kind, `issued-at`, `expires-at = now + lifetime` and the
subject. -/
def JWTHandler.create_access_token (sub : String) (now : Nat) : Cred :=
  .jwtSigned
    { sub := some sub, typ := some "access",
      exp := now + JWT_EXPIRATION, iat := now } SECRET_KEY

/-- Modelled from the spec: `JWTHandler.create_refresh_token`, as above for
the refresh kind. -/
def JWTHandler.create_refresh_token (sub : String) (now : Nat) : Cred :=
  .jwtSigned
    { sub := some sub, typ := some "refresh",
      exp := now + REFRESH_TOKEN_EXPIRATION, iat := now } SECRET_KEY

structure TokenPair where
  access_token : Cred
  refresh_token : Cred
deriving DecidableEq, Repr

/-- The `/auth/refresh` endpoint (`refresh_token` in `endpoints/auth.py`).
The whole body sits in a `try` whose `except Exception` clause also catches
the `HTTPException`s the body itself raises (including the 401
"Invalid token type" raised on a wrong-kind token) and replaces every failure
with the one generic 401. -/
def refresh_token (tok : Cred) (db : DB) (now : Nat) : Except AuthError TokenPair :=
  let body : Except AuthError TokenPair :=
    match JWTHandler.decode_token tok now with
    | .error e => .error (.jwtException e)
    | .ok payload =>
      if payload.typ != some "refresh" then
        .error (.http 401 "Invalid token type")
      else
        match db.users.find? (fun u => some (toString u.id) == payload.sub && u.is_active) with
        | none => .error (.http 401 "User not found")
        | some user =>
          .ok { access_token := JWTHandler.create_access_token (toString user.id) now,
                refresh_token := JWTHandler.create_refresh_token (toString user.id) now }
  match body with
  | .ok pair => .ok pair
  | .error _ => .error (.http 401 "Could not validate refresh token")

/-- The `/auth/api-keys` creation endpoint (`create_api_key` in
`endpoints/auth.py`): the random plaintext from `secrets.token_urlsafe(32)`
is an explicit argument, its hash is `hashlib.sha256(...).hexdigest()`, and
the plaintext is returned to the caller exactly once.  `newId` stands for the
autoincremented primary key. -/
def create_api_key (db : DB) (current_user_id : Nat) (generated_key : String)
    (key_name : String) (expires_in_days : Option Nat) (newId : Nat) (now : Nat) :
    DB × String :=
  let key_hash := Digest.sha256hex generated_key
  let expires_at := expires_in_days.map (fun d => now + d * 86400)
  let record : ApiKey :=
    { id := newId, key_hash := key_hash, name := key_name,
      user_id := current_user_id, is_active := true,
      expires_at := expires_at, last_used_at := none }
  ({ db with api_keys := db.api_keys ++ [record] }, generated_key)

/-! ## Repository operations (`app/repositories/user_repository.py`)

`BaseRepository.update` re-fetches the row by primary key inside the same
session and mutates it field by field, so a missing user makes every one of
these a no-op. -/

def UserRepository.increment_failed_login (db : DB) (uid : Nat) : DB :=
  match db.getUserById uid with
  | none => db
  | some user =>
    db.updateUser uid
      (fun v => { v with failed_login_attempts := user.failed_login_attempts + 1 })

def UserRepository.reset_failed_login (db : DB) (uid : Nat) : DB :=
  db.updateUser uid (fun v => { v with failed_login_attempts := 0, locked_until := none })

/-- `lock_account`: `locked_until = utcnow() + timedelta(minutes=duration)`.
Time is in seconds here, hence the factor 60. -/
def UserRepository.lock_account (db : DB) (uid : Nat) (lock_duration_minutes : Nat)
    (now : Nat) : DB :=
  db.updateUser uid (fun v => { v with locked_until := some (now + lock_duration_minutes * 60) })

def UserRepository.unlock_account (db : DB) (uid : Nat) : DB :=
  db.updateUser uid (fun v => { v with locked_until := none, failed_login_attempts := 0 })

def UserRepository.update_last_login (db : DB) (uid : Nat) (now : Nat) : DB :=
  db.updateUser uid (fun v => { v with last_login := some now })

/-! ## AuthService (`app/services/auth_service.py`) -/

def AuthService.MAX_FAILED_ATTEMPTS : Nat := 5

def AuthService.LOCKOUT_DURATION_MINUTES : Nat := 30

/-- The observable outcome of `AuthService.authenticate_user`: the Python
function returns a token-bearing dict on success, returns `None` on unknown
user, inactive user, or a below-threshold password mismatch, and raises
`ValueError` either for an existing lock (message carrying `locked_until`) or
for a threshold crossing (message announcing the new 30-minute lock).  An
exception escaping `verify_password` is its own outcome. -/
inductive LoginResult where
  | success (userId : Nat) (username : String)
  | failure
  | lockedUntilError (locked_until : Option Nat)
  | lockedNowError
  | verifyException
deriving DecidableEq, Repr

/-- `AuthService.authenticate_user`.  One subtlety of the source is embedded
here and load-bearing: the repository methods fetch the row by primary key in
the same SQLAlchemy session, so they return and mutate the very
identity-mapped instance the service already holds as `user`; after
`increment_failed_login` the service therefore reads the incremented counter,
which is why the threshold test is taken against a re-read of the stored
user. -/
def AuthService.authenticate_user (db : DB) (username : String) (password : String)
    (now : Nat) : LoginResult × DB :=
  let userOpt : Option User :=
    match db.users.find? (fun u => u.username == username) with
    | some u => some u
    | none => db.users.find? (fun u => u.email == username)
  match userOpt with
  | none => (.failure, db)
  | some user =>
    if user.is_locked now then (.lockedUntilError user.locked_until, db)
    else if !user.is_active then (.failure, db)
    else
      match verify_password password user.password_hash with
      | .error _ => (.verifyException, db)
      | .ok true =>
        (let db1 := UserRepository.reset_failed_login db user.id
         let db2 := UserRepository.update_last_login db1 user.id now
         (.success user.id user.username, db2))
      | .ok false =>
        (let db1 := UserRepository.increment_failed_login db user.id
         match db1.getUserById user.id with
         | none => (.failure, db1)
         | some user1 =>
           if decide (user1.failed_login_attempts + 1 ≥ AuthService.MAX_FAILED_ATTEMPTS) then
             (let db2 := UserRepository.lock_account db1 user.id
                AuthService.LOCKOUT_DURATION_MINUTES now
              (.lockedNowError, db2))
           else (.failure, db1))

/-- Result and state of the k-th consecutive call to
`AuthService.authenticate_user` with the same inputs (the base case 0 stands
for "no call made yet"). -/
def iterateLogins (db : DB) (username password : String) (now : Nat) :
    Nat → LoginResult × DB
  | 0 => (.failure, db)
  | n + 1 =>
    let (_, db1) := iterateLogins db username password now n
    AuthService.authenticate_user db1 username password now

/-! ## Micro-step model of the failed-login counter update

`UserRepository.increment_failed_login` awaits a SELECT of the row, computes
`failed_login_attempts + 1` in Python, and awaits an UPDATE; the two awaits
are suspension points, so two concurrent requests may interleave their read
and write halves.  A thread is `readVal = none` before its read, carries the
value it read until its write, and is `done` afterwards. -/

structure IncrThread where
  readVal : Option Nat
  done : Bool
deriving DecidableEq, Repr

def IncrThread.start : IncrThread := { readVal := none, done := false }

/-- One micro-step of one in-flight `increment_failed_login(uid)` call. -/
def incrStep (db : DB) (uid : Nat) (th : IncrThread) : DB × IncrThread :=
  match th.readVal, th.done with
  | none, _ =>
    (db, { th with readVal := (db.getUserById uid).map (fun u => u.failed_login_attempts) })
  | some n, false =>
    (db.updateUser uid (fun v => { v with failed_login_attempts := n + 1 }),
     { th with done := true })
  | some _, true => (db, th)

inductive Tid where
  | t1
  | t2
deriving DecidableEq, Repr

/-- Run two concurrent `increment_failed_login(uid)` calls under an explicit
interleaving schedule. -/
def runSched (db : DB) (uid : Nat) (s1 s2 : IncrThread) :
    List Tid → DB × IncrThread × IncrThread
  | [] => (db, s1, s2)
  | .t1 :: rest =>
    let (db1, s1n) := incrStep db uid s1
    runSched db1 uid s1n s2 rest
  | .t2 :: rest =>
    let (db1, s2n) := incrStep db uid s2
    runSched db1 uid s1 s2n rest

/-! ## Concrete fixtures -/

/-- An ordinary active, unlocked, non-superuser account. -/
def alice : User :=
  { id := 1, username := "alice", email := "alice@x.com",
    password_hash := .bcrypt 0 "Secret123", is_active := true, is_superuser := false,
    last_login := none, failed_login_attempts := 0, locked_until := none, roles := [] }

def aliceDB : DB := { users := [alice], api_keys := [] }

/-- The account state the code itself produces by locking `alice` at
`now = 1000`: four counted failures and a lock until `2800`. -/
def lockedAlice : User :=
  { alice with failed_login_attempts := 4, locked_until := some 2800 }

def lockedAliceDB : DB := { users := [lockedAlice], api_keys := [] }

/-- An active role holding only the wildcard permission string. -/
def wildRole : Role := { name := "admin", permissions := ["*"], is_active := true }

/-- A non-superuser whose only active role holds the wildcard. -/
def wildUser : User := { alice with roles := [wildRole] }

/-! ## Claims -/

/-- C1, counterexample: a non-superuser whose only active role holds the
wildcard permission string fails an ordinary permission check —
`User.has_permission` gives the wildcard no special treatment, contradicting
the claim that such a user passes every permission check. -/
theorem C1_counterexample :
    wildUser.is_superuser = false
  ∧ wildRole ∈ wildUser.roles
  ∧ wildRole.is_active = true
  ∧ "*" ∈ wildRole.permissions
  ∧ wildUser.has_permission "read:x" = false :=
  ⟨rfl, by simp [wildUser, wildRole], rfl, by simp [wildRole], rfl⟩

/-- C1, amended: `User.has_permission` returns true immediately for a
superuser, and otherwise returns true iff some active role of the user
contains that exact permission string in its permission set; the wildcard
string receives no special treatment. -/
theorem C1_theorem (u : User) (p : String) :
    u.has_permission p = true ↔
      u.is_superuser = true ∨ ∃ r ∈ u.roles, r.is_active = true ∧ p ∈ r.permissions := by
  unfold User.has_permission
  by_cases hs : u.is_superuser
  · simp [hs]
  · simp [hs, List.any_eq_true]

/-- C2, counterexample: a refresh token presented to the access-token path
and an access token presented to the refresh path are both rejected, but each
with the very same generic invalid-token error that a malformed token
produces on that path — there is no distinct wrong-token-type failure. -/
theorem C2_counterexample :
    get_current_user (some (create_refresh_token "alice" 0)) aliceDB 10
      = .error (.http 401 "Could not validate credentials")
  ∧ get_current_user (some (.str "garbage")) aliceDB 10
      = .error (.http 401 "Could not validate credentials")
  ∧ refresh_token (create_access_token "1" 0) aliceDB 10
      = .error (.http 401 "Could not validate refresh token")
  ∧ refresh_token (.str "garbage") aliceDB 10
      = .error (.http 401 "Could not validate refresh token") :=
  ⟨rfl, rfl, rfl, rfl⟩

/-- C3: the account locks on the 4th consecutive wrong password, not the
5th.  After the repository increment the service re-reads the same
identity-mapped row and then adds 1 again in its threshold test, so three
wrong attempts leave `Unlocked(3)` and the fourth crosses the threshold,
setting `locked_until = now + 30 minutes` and raising the newly-locked
error. -/
theorem C3_theorem :
    (iterateLogins aliceDB "alice" "wrong" 1000 3).1 = .failure
  ∧ ((iterateLogins aliceDB "alice" "wrong" 1000 3).2.getUserById 1).map
      (fun u => (u.failed_login_attempts, u.locked_until)) = some (3, none)
  ∧ (iterateLogins aliceDB "alice" "wrong" 1000 4).1 = .lockedNowError
  ∧ ((iterateLogins aliceDB "alice" "wrong" 1000 4).2.getUserById 1).map
      (fun u => (u.failed_login_attempts, u.locked_until)) = some (4, some 2800) :=
  ⟨rfl, rfl, rfl, rfl⟩

/-- C4, counterexample: with the lock lapsed (`locked_until = 2800 ≤ now =
3000`) a wrong password does not re-enter the counting state at one failed
attempt — the retained counter is incremented past the threshold and the
account is immediately re-locked until `now + 30` minutes. -/
theorem C4_counterexample :
    lockedAlice.locked_until = some 2800
  ∧ 2800 ≤ 3000
  ∧ (AuthService.authenticate_user lockedAliceDB "alice" "wrong" 3000).1 = .lockedNowError
  ∧ ((AuthService.authenticate_user lockedAliceDB "alice" "wrong" 3000).2.getUserById 1).map
      (fun u => (u.failed_login_attempts, u.locked_until)) = some (5, some 4800)
  ∧ ((AuthService.authenticate_user lockedAliceDB "alice" "wrong" 3000).2.getUserById 1).map
      (fun u => u.failed_login_attempts) ≠ some 1 :=
  ⟨rfl, by decide, rfl, rfl, by decide⟩

/-- C5: an API key created by the creation endpoint can never authenticate.
The stored digest is a sha256 hex digest, the key record is active and
unexpired and its owner active, yet presenting the exact plaintext to
`get_api_key_user` raises passlib's `UnknownHashError` (the bcrypt-only
context cannot identify a sha256 digest) instead of matching — the
create-then-authenticate round trip always fails. -/
theorem C5_theorem :
    (create_api_key aliceDB 1 "rawkey123" "ci" none 7 0).2 = "rawkey123"
  ∧ (create_api_key aliceDB 1 "rawkey123" "ci" none 7 0).1.api_keys.map
      (fun k => (k.key_hash, k.is_active, k.expires_at, k.user_id))
      = [(.sha256hex "rawkey123", true, none, 1)]
  ∧ alice.is_active = true
  ∧ get_api_key_user (some (.str "rawkey123"))
      (create_api_key aliceDB 1 "rawkey123" "ci" none 7 0).1 5
      = .error .unknownHash :=
  ⟨rfl, rfl, rfl, rfl⟩

/-- C6: the gateway does not prefer the token channel — it cannot use it at
all.  For a request carrying a valid access token of an active, unlocked
user, the token sub-dependency resolves the identity, but the API-key
sub-dependency (fed the same Authorization header) raises 401 on scan
exhaustion before the gateway body runs, so the request fails instead of
authenticating as that user.  The no-credentials half of the claim holds. -/
theorem C6_theorem :
    get_current_user (some (create_access_token "alice" 0)) aliceDB 10
      = .ok ({ alice with last_login := some 10 },
             { users := [{ alice with last_login := some 10 }], api_keys := [] })
  ∧ get_current_user_or_api_key (some (create_access_token "alice" 0)) aliceDB 10
      = .error (.http 401 "Invalid API key")
  ∧ get_current_user_or_api_key none aliceDB 10
      = .error (.http 401 "Not authenticated") :=
  ⟨rfl, rfl, rfl⟩

/-- C7, counterexample: an expired well-signed token and a malformed token
raise different jose exceptions, but `decode_token` converts both to the one
generic 401 `HTTPException` — expiry and invalidity are not distinguishable
outcomes. -/
theorem C7_counterexample :
    jose_jwt_decode
      (.jwtSigned { sub := some "alice", typ := some "access", exp := 5, iat := 0 } SECRET_KEY)
      SECRET_KEY 10 = .error .expiredSignature
  ∧ jose_jwt_decode (.str "garbage") SECRET_KEY 10 = .error .jwtError
  ∧ decode_token
      (.jwtSigned { sub := some "alice", typ := some "access", exp := 5, iat := 0 } SECRET_KEY)
      10 = .error (.http 401 "Could not validate credentials")
  ∧ decode_token (.str "garbage") 10
      = .error (.http 401 "Could not validate credentials") :=
  ⟨rfl, rfl, rfl, rfl⟩

/-- C8, counterexample: `verify_password` on a malformed digest raises
passlib's `UnknownHashError` instead of returning false; `verify_api_key`
behaves the same. -/
theorem C8_counterexample :
    verify_password "pw" (.malformed "not-a-hash") = .error .unknownHash
  ∧ verify_password "pw" (.malformed "not-a-hash") ≠ .ok false
  ∧ verify_api_key (.str "pw") (.malformed "not-a-hash") = .error .unknownHash :=
  ⟨rfl, fun h => Except.noConfusion h, rfl⟩

/-- C9: the failed-login counter update is a read-then-write with suspension
points between the two halves, not a single atomic update.  Two concurrent
increments from `attempts = 0` leave `attempts = 2` under a serial schedule,
but the interleaving read-read-write-write completes both threads and leaves
`attempts = 1`, losing an increment; a single thread run to completion is
exactly `UserRepository.increment_failed_login`. -/
theorem C9_theorem :
    ((runSched aliceDB 1 .start .start [.t1, .t1, .t2, .t2]).1.getUserById 1).map
      (fun u => u.failed_login_attempts) = some 2
  ∧ ((runSched aliceDB 1 .start .start [.t1, .t2, .t1, .t2]).1.getUserById 1).map
      (fun u => u.failed_login_attempts) = some 1
  ∧ (runSched aliceDB 1 .start .start [.t1, .t2, .t1, .t2]).2.1.done = true
  ∧ (runSched aliceDB 1 .start .start [.t1, .t2, .t1, .t2]).2.2.done = true
  ∧ (runSched aliceDB 1 .start .start [.t1, .t1]).1
      = UserRepository.increment_failed_login aliceDB 1 :=
  ⟨rfl, rfl, rfl, rfl, rfl⟩

/-- C2, amended: a well-signed, unexpired token of the wrong kind is rejected
by both code paths, but each reports its generic invalid-token 401 error (the
credentials exception on the access path, the catch-all refresh message on
the refresh path), not a distinct wrong-token-type failure. -/
theorem C2_theorem (p : Payload) (db : DB) (now : Nat) (hexp : now ≤ p.exp) :
    (p.typ ≠ some "access" →
      get_current_user (some (.jwtSigned p SECRET_KEY)) db now = .error credentials_exception)
  ∧ (p.typ ≠ some "refresh" →
      refresh_token (.jwtSigned p SECRET_KEY) db now
        = .error (.http 401 "Could not validate refresh token")) := by
  have hij : jose_jwt_decode (.jwtSigned p SECRET_KEY) SECRET_KEY now = .ok p := by
    simp [jose_jwt_decode, decide_eq_false (Nat.not_lt.mpr hexp)]
  constructor
  · intro hty
    have hb : (p.typ != some "access") = true := bne_iff_ne.mpr hty
    cases hsub : p.sub with
    | none => simp [get_current_user, decode_token, hij, hsub]
    | some username => simp [get_current_user, decode_token, hij, hsub, hb]
  · intro hty
    have hb : (p.typ != some "refresh") = true := bne_iff_ne.mpr hty
    simp [refresh_token, JWTHandler.decode_token, hij, hb]

theorem C2_theorem_witness :
    get_current_user
      (some (.jwtSigned { sub := some "alice", typ := some "refresh",
                          exp := 604800, iat := 0 } SECRET_KEY)) aliceDB 10
      = .error credentials_exception
  ∧ refresh_token
      (.jwtSigned { sub := some "1", typ := some "access",
                    exp := 3600, iat := 0 } SECRET_KEY) aliceDB 10
      = .error (.http 401 "Could not validate refresh token") :=
  ⟨(C2_theorem _ aliceDB 10 (by decide)).1 (by decide),
   (C2_theorem _ aliceDB 10 (by decide)).2 (by decide)⟩

/-- C4, amended: once the lock has lapsed, the correct password still
succeeds and resets the counter and the lock; but a wrong password is
counted on top of the retained (never reset) counter, so it crosses the
threshold again and immediately re-locks the account for 30 minutes instead
of re-entering the counting state at one failed attempt. -/
theorem C4_theorem (u : User) (ks : List ApiKey) (t now salt : Nat)
    (realpw wrongpw : String)
    (hlock : u.locked_until = some t) (hlapse : t ≤ now)
    (hactive : u.is_active = true)
    (hhash : u.password_hash = .bcrypt salt realpw)
    (hwrong : wrongpw ≠ realpw)
    (hn : 3 ≤ u.failed_login_attempts) :
    (AuthService.authenticate_user { users := [u], api_keys := ks } u.username realpw now).1
      = .success u.id u.username
  ∧ ((AuthService.authenticate_user { users := [u], api_keys := ks }
        u.username realpw now).2.getUserById u.id).map
      (fun v => (v.failed_login_attempts, v.locked_until)) = some (0, none)
  ∧ (AuthService.authenticate_user { users := [u], api_keys := ks } u.username wrongpw now).1
      = .lockedNowError
  ∧ ((AuthService.authenticate_user { users := [u], api_keys := ks }
        u.username wrongpw now).2.getUserById u.id).map
      (fun v => v.locked_until) = some (some (now + 1800)) := by
  have hnl : u.is_locked now = false := by
    simp [User.is_locked, hlock, decide_eq_false (Nat.not_lt.mpr hlapse)]
  have hbw : (wrongpw == realpw) = false := beq_eq_false_iff_ne.mpr hwrong
  have hth : (decide (u.failed_login_attempts + 1 + 1 ≥ AuthService.MAX_FAILED_ATTEMPTS)) = true :=
    decide_eq_true (by unfold AuthService.MAX_FAILED_ATTEMPTS; omega)
  refine ⟨?_, ?_, ?_, ?_⟩ <;>
    simp [AuthService.authenticate_user, hnl, hactive, verify_password,
      pwd_context_verify, ctxIdentify, credMatches, hhash, hbw, hth,
      UserRepository.reset_failed_login, UserRepository.update_last_login,
      UserRepository.increment_failed_login, UserRepository.lock_account,
      AuthService.LOCKOUT_DURATION_MINUTES, DB.updateUser, DB.getUserById]

theorem C4_theorem_witness :
    (AuthService.authenticate_user lockedAliceDB "alice" "Secret123" 3000).1
      = .success 1 "alice"
  ∧ ((AuthService.authenticate_user lockedAliceDB "alice" "Secret123" 3000).2.getUserById 1).map
      (fun v => (v.failed_login_attempts, v.locked_until)) = some (0, none)
  ∧ (AuthService.authenticate_user lockedAliceDB "alice" "wrong" 3000).1 = .lockedNowError
  ∧ ((AuthService.authenticate_user lockedAliceDB "alice" "wrong" 3000).2.getUserById 1).map
      (fun v => v.locked_until) = some (some 4800) :=
  C4_theorem lockedAlice [] 2800 3000 0 "Secret123" "wrong"
    rfl (by decide) rfl rfl (by decide) (by decide)

/-- C7, amended: `decode_token` succeeds exactly on a token well-signed with
the configured key and unexpired, and every failure — signature mismatch,
malformed structure, or expiry — surfaces as the one generic 401 error, so
expiry and invalidity are not distinguishable outcomes. -/
theorem C7_theorem (t : Cred) (now : Nat) :
    (∀ e, decode_token t now = .error e →
       e = .http 401 "Could not validate credentials")
  ∧ (∀ p, decode_token t now = .ok p →
       t = .jwtSigned p SECRET_KEY ∧ now ≤ p.exp)
  ∧ (∀ p, t = .jwtSigned p SECRET_KEY → now ≤ p.exp →
       decode_token t now = .ok p) := by
  refine ⟨?_, ?_, ?_⟩
  · intro e h
    unfold decode_token at h
    split at h <;> simp_all
  · intro p h
    unfold decode_token at h
    split at h
    case _ q hq =>
      cases t with
      | str s => simp [jose_jwt_decode] at hq
      | jwtSigned pl k =>
        unfold jose_jwt_decode at hq
        by_cases hk : (k != SECRET_KEY) = true
        · simp [hk] at hq
        · rw [Bool.not_eq_true] at hk
          simp only [hk, Bool.false_eq_true, if_false] at hq
          by_cases he : (decide (now > pl.exp)) = true
          · simp [he] at hq
          · rw [Bool.not_eq_true] at he
            simp only [he, Bool.false_eq_true, if_false, Except.ok.injEq] at hq
            cases h
            cases hq
            exact ⟨by rw [bne_eq_false_iff_eq] at hk; rw [hk],
                   Nat.not_lt.mp (by simpa using of_decide_eq_false he)⟩
    case _ => simp_all
  · intro p ht hexp
    subst ht
    simp [decode_token, jose_jwt_decode, decide_eq_false (Nat.not_lt.mpr hexp)]

theorem C7_theorem_witness :
    decode_token (Cred.str "garbage") 10
      = .error (.http 401 "Could not validate credentials")
  ∧ AuthError.http 401 "Could not validate credentials"
      = .http 401 "Could not validate credentials"
  ∧ decode_token
      (.jwtSigned { sub := some "alice", typ := some "access", exp := 3600, iat := 0 }
        SECRET_KEY) 10
      = .ok { sub := some "alice", typ := some "access", exp := 3600, iat := 0 } :=
  ⟨rfl, (C7_theorem (.str "garbage") 10).1 _ rfl,
   (C7_theorem (.jwtSigned { sub := some "alice", typ := some "access", exp := 3600, iat := 0 }
      SECRET_KEY) 10).2.2 _ rfl (by decide)⟩

/-- C8, amended: against a well-formed bcrypt digest, `verify_password` and
`verify_api_key` return a boolean that is true iff the digest was produced
from that plaintext; against a malformed digest they raise the passlib
`UnknownHashError` rather than returning false. -/
theorem C8_theorem (p q : String) (salt : Nat) (raw : String) :
    verify_password p (hash_password salt p) = .ok true
  ∧ (q ≠ p → verify_password q (hash_password salt p) = .ok false)
  ∧ verify_password p (.malformed raw) = .error .unknownHash
  ∧ verify_api_key (.str p) (hash_api_key salt p) = .ok true
  ∧ verify_api_key (.str p) (.malformed raw) = .error .unknownHash := by
  refine ⟨?_, fun hne => ?_, rfl, ?_, rfl⟩ <;>
    simp [verify_password, verify_api_key, pwd_context_verify, ctxIdentify,
      credMatches, hash_password, hash_api_key]
  exact hne

theorem C8_theorem_witness :
    verify_password "Secret123" (hash_password 0 "Secret123") = .ok true
  ∧ ("wrong" ≠ "Secret123" → verify_password "wrong" (hash_password 0 "Secret123") = .ok false)
  ∧ verify_password "Secret123" (.malformed "xyz") = .error .unknownHash
  ∧ verify_api_key (.str "Secret123") (hash_api_key 0 "Secret123") = .ok true
  ∧ verify_api_key (.str "Secret123") (.malformed "xyz") = .error .unknownHash :=
  C8_theorem "Secret123" "wrong" 0 "xyz"

/-- C10: a valid, unexpired access token of an existing active user is
nevertheless rejected with a 403 by `get_current_user` whenever the user is
locked (`locked_until` set and in the future) — lockout denies token-based
request authentication, not only password login. -/
theorem C10_theorem (db : DB) (now t e i : Nat) (username : String) (user : User)
    (hfind : db.users.find? (fun u => u.username == username && u.is_active) = some user)
    (hexp : now ≤ e)
    (hlocked : user.locked_until = some t)
    (hfut : now < t) :
    get_current_user
      (some (.jwtSigned { sub := some username, typ := some "access", exp := e, iat := i }
              SECRET_KEY)) db now
    = .error (.http 403 "Account is locked. Please contact administrator.") := by
  simp [get_current_user, decode_token, jose_jwt_decode,
    decide_eq_false (Nat.not_lt.mpr hexp), hfind, User.is_locked, hlocked,
    decide_eq_true hfut]

theorem C10_theorem_witness :
    get_current_user
      (some (.jwtSigned { sub := some "alice", typ := some "access", exp := 3600, iat := 0 }
              SECRET_KEY)) lockedAliceDB 10
    = .error (.http 403 "Account is locked. Please contact administrator.") :=
  C10_theorem lockedAliceDB 10 2800 3600 0 "alice" lockedAlice rfl
    (by decide) rfl (by decide)

end App
